import Mathlib

/-!
Shallow embedding of `src/pyzbar/pyzbar.py` (SeedSigner/pyzbar).

The module is a ctypes binding around the native zbar library.  We embed the
`decode` function for its tuple input branch `(pixels, width, height)`:
the PIL/numpy branches only convert external objects into exactly that shape.

The native zbar functions (`zbar_image_scanner_create`, `zbar_image_create`,
`zbar_scan_image`, the symbol accessors) live outside this repository, so the
embedding is parameterised by a `ZBarNative` record describing their observable
behaviour on one call, and `decode` additionally records every native call it
makes as an `Event` trace threaded through a `World` (handle allocator + log),
which lets us state resource-lifetime and statelessness properties.

Python's `8 * len(pixels) / (width * height)` is true division on integers; it
is modelled exactly in `ℚ` (and raises `ZeroDivisionError` when the denominator
is zero, which is modelled as the `zeroDivisionError` outcome).
-/

namespace PyZbar

/-- Symbology tags, as in `ZBarSymbol` of `wrapper.py` (only the members this
development needs; the Python enum has further members). -/
inductive ZBarSymbol
  | NONE
  | EAN13
  | QRCODE
  | CODE128
  deriving DecidableEq, Repr

/-- Configuration knobs, as in `ZBarConfig` of `wrapper.py` (only the member
used by `decode`). -/
inductive ZBarConfig
  | CFG_ENABLE
  deriving DecidableEq, Repr

/-- The tuple input branch of `decode`: `(pixels, width, height)`, where
`pixels` is the raw byte string (each byte a `Nat`). -/
structure Image where
  pixels : List Nat
  width : Nat
  height : Nat
  deriving DecidableEq, Repr

/-- The `Decoded` namedtuple: `Decoded = namedtuple('Decoded', ['data', 'type'])`.
The Python `type` field holds the enum member name; we keep the member itself. -/
structure Decoded where
  data : List Nat
  type : ZBarSymbol
  deriving DecidableEq, Repr

/-- The ways a `decode` call can abort.  All but `zeroDivisionError` are
`PyZbarError` raises appearing verbatim in `pyzbar.py`; `zeroDivisionError` is
Python's built-in error from dividing by `width * height = 0`. -/
inductive DecodeErr
  | zeroDivisionError
  | unsupportedBitsPerPixel
  | couldNotCreateDecoder
  | couldNotCreateImage
  | unsupportedImageFormat
  deriving DecidableEq, Repr

/-- Which abort outcomes are `PyZbarError` raises (as opposed to Python's
built-in `ZeroDivisionError`). -/
def DecodeErr.isPyZbarError : DecodeErr → Bool
  | .zeroDivisionError => false
  | .unsupportedBitsPerPixel => true
  | .couldNotCreateDecoder => true
  | .couldNotCreateImage => true
  | .unsupportedImageFormat => true

/-- One observable native-library call made by `decode`.  Handles are the
opaque pointers returned by the create functions, numbered by an allocator. -/
inductive Event
  | createScanner (h : Nat)
  | destroyScanner (h : Nat)
  | createImage (h : Nat)
  | destroyImage (h : Nat)
  | setConfig (scanner : Nat) (sym : ZBarSymbol) (cfg : ZBarConfig) (value : Int)
  | setFormat (image : Nat) (fourcc : Nat)
  | setSize (image : Nat) (width height : Nat)
  | setData (image : Nat) (length : Nat)
  | scanImage (scanner image : Nat) (result : Int)
  deriving DecidableEq, Repr

/-- One symbol node of the native result linked list: `zbar_symbol_get_data`
points at `data` (read by `string_at`), and `symbol.contents.value` is read as
the symbol type (`ZBarSymbol(symbol.contents.value)`). -/
structure NativeSymbol where
  data : List Nat
  value : ZBarSymbol
  deriving DecidableEq, Repr

/-- Observable behaviour of the native zbar library during one `decode` call:
whether each create call returns a non-NULL handle, the return value of
`zbar_scan_image`, and the symbol list walked via `zbar_image_first_symbol` /
`zbar_symbol_next`. -/
structure ZBarNative where
  scannerCreateOk : Bool
  imageCreateOk : Bool
  scanResult : Image → Int
  symbols : Image → List NativeSymbol

/-- Ambient state threaded through a call: a fresh-handle allocator and the
log of native calls made so far (by this and all previous calls). -/
structure World where
  nextHandle : Nat
  log : List Event
  deriving DecidableEq, Repr

/-- The initial world: no handles allocated, empty log. -/
def world0 : World := { nextHandle := 0, log := [] }

/-- `FOURCC['L800'] = 808466521`, the fourcc passed to `zbar_image_set_format`. -/
def FOURCC_L800 : Nat := 808466521

/-- ctypes `string_at(ptr)` with no size argument: reads bytes up to (and not
including) the first NUL byte. -/
def string_at (bytes : List Nat) : List Nat :=
  bytes.takeWhile (fun b => decide (b ≠ 0))

/-- `bpp = 8 * len(pixels) / (width * height)` with Python 3 true division,
modelled exactly in `ℚ` (defined only when the denominator is nonzero;
`decode` checks for the zero denominator first, as Python raises
`ZeroDivisionError` there). -/
def bitsPerPixel (len wh : Nat) : ℚ :=
  (8 * (len : ℚ)) / (wh : ℚ)

/-- The part of `decode` after the bits-per-pixel check: create the scanner,
enable QRCODE and CODE128, create the image, set format/size/data, scan, and
on success walk the symbol list building the results.  Context-manager
semantics: the image is destroyed before the scanner, on success and on the
`zbar_scan_image < 0` error path alike; a handle whose create call failed is
never destroyed.  Returns the call result together with the native-call
events, with `h0` the first free handle number. -/
def decodeScan (native : ZBarNative) (image : Image) (h0 : Nat) :
    Except DecodeErr (List Decoded) × List Event :=
  if native.scannerCreateOk = false then
    (Except.error DecodeErr.couldNotCreateDecoder, [])
  else
    let s := h0
    let pre := [Event.createScanner s,
                Event.setConfig s ZBarSymbol.QRCODE ZBarConfig.CFG_ENABLE 1,
                Event.setConfig s ZBarSymbol.CODE128 ZBarConfig.CFG_ENABLE 1]
    if native.imageCreateOk = false then
      (Except.error DecodeErr.couldNotCreateImage, pre ++ [Event.destroyScanner s])
    else
      let i := h0 + 1
      let mid := pre ++ [Event.createImage i,
                         Event.setFormat i FOURCC_L800,
                         Event.setSize i image.width image.height,
                         Event.setData i image.pixels.length]
      let res := native.scanResult image
      let mid2 := mid ++ [Event.scanImage s i res]
      if res < 0 then
        (Except.error DecodeErr.unsupportedImageFormat,
         mid2 ++ [Event.destroyImage i, Event.destroyScanner s])
      else
        (Except.ok ((native.symbols image).map
            (fun sym => { data := string_at sym.data, type := sym.value })),
         mid2 ++ [Event.destroyImage i, Event.destroyScanner s])

/-- The whole `decode` body on a `(pixels, width, height)` input: the
bits-per-pixel gate (raising `ZeroDivisionError` on a zero-area image and
`PyZbarError` on `8 != bpp`) followed by the scan pipeline. -/
def decodeCore (native : ZBarNative) (image : Image) (h0 : Nat) :
    Except DecodeErr (List Decoded) × List Event :=
  if image.width * image.height = 0 then
    (Except.error DecodeErr.zeroDivisionError, [])
  else if (8 : ℚ) ≠ bitsPerPixel image.pixels.length (image.width * image.height) then
    (Except.error DecodeErr.unsupportedBitsPerPixel, [])
  else
    decodeScan native image h0

/-- `decode`, threading the ambient world: handles are allocated fresh from
`w.nextHandle` and the call appends its native-call events to the log. -/
def decode (native : ZBarNative) (image : Image) (w : World) :
    Except DecodeErr (List Decoded) × World :=
  let r := decodeCore native image w.nextHandle
  (r.1, { nextHandle := w.nextHandle + (r.2.countP (fun e =>
            match e with
            | Event.createScanner _ => true
            | Event.createImage _ => true
            | _ => false)),
          log := w.log ++ r.2 })

/-- The native-call events contributed by one `decode` call (the suffix the
call appended to the log). -/
def newEvents (native : ZBarNative) (image : Image) (w : World) : List Event :=
  (decode native image w).2.log.drop w.log.length

/-- The `zbar_image_scanner_set_config` arguments appearing in an event trace. -/
def configEventsOf (es : List Event) : List (ZBarSymbol × ZBarConfig × Int) :=
  es.filterMap (fun e =>
    match e with
    | Event.setConfig _ sym cfg v => some (sym, cfg, v)
    | _ => none)

/-- The fixed configuration `decode` applies: enable QRCODE, enable CODE128. -/
def enabledBaseline : List (ZBarSymbol × ZBarConfig × Int) :=
  [(ZBarSymbol.QRCODE, ZBarConfig.CFG_ENABLE, 1),
   (ZBarSymbol.CODE128, ZBarConfig.CFG_ENABLE, 1)]

/-- Does this native call refer to handle `h`?  -/
def Event.usesHandle : Event → Nat → Bool
  | .createScanner s, h => s == h
  | .destroyScanner s, h => s == h
  | .createImage i, h => i == h
  | .destroyImage i, h => i == h
  | .setConfig s _ _ _, h => s == h
  | .setFormat i _, h => i == h
  | .setSize i _ _, h => i == h
  | .setData i _, h => i == h
  | .scanImage s i _, h => s == h || i == h

/-- Handle `h` is referred to somewhere in the trace. -/
def handleUsedIn (es : List Event) (h : Nat) : Prop :=
  ∃ e ∈ es, e.usesHandle h = true

/-- Handle `h` is created (as a scanner or as an image) in the trace. -/
def handleCreatedIn (es : List Event) (h : Nat) : Prop :=
  Event.createScanner h ∈ es ∨ Event.createImage h ∈ es

instance (es : List Event) (h : Nat) : Decidable (handleUsedIn es h) := by
  unfold handleUsedIn; infer_instance

instance (es : List Event) (h : Nat) : Decidable (handleCreatedIn es h) := by
  unfold handleCreatedIn; infer_instance

/-- Trivial native behaviour: creation succeeds, scan finds nothing. -/
def trivNative : ZBarNative :=
  { scannerCreateOk := true, imageCreateOk := true,
    scanResult := fun _ => 0, symbols := fun _ => [] }

/-- Native behaviour on which `zbar_scan_image` reports an error. -/
def negNative : ZBarNative :=
  { scannerCreateOk := true, imageCreateOk := true,
    scanResult := fun _ => -1, symbols := fun _ => [] }

/-- Native behaviour whose symbol list holds the same decode twice (as two
row-adjacent candidates of one physical barcode would produce). -/
def dupNative : ZBarNative :=
  { scannerCreateOk := true, imageCreateOk := true,
    scanResult := fun _ => 2,
    symbols := fun _ => [{ data := [65], value := ZBarSymbol.QRCODE },
                         { data := [65], value := ZBarSymbol.QRCODE }] }

/-- Native behaviour whose single symbol's decoded payload contains a NUL
byte: the bytes `72, 0, 73` (`b"H\x00I"`). -/
def nulNative : ZBarNative :=
  { scannerCreateOk := true, imageCreateOk := true,
    scanResult := fun _ => 1,
    symbols := fun _ => [{ data := [72, 0, 73], value := ZBarSymbol.QRCODE }] }

theorem bitsPerPixel_eq_eight_iff (len wh : Nat) (hwh : wh ≠ 0) :
    (8 : ℚ) = bitsPerPixel len wh ↔ len = wh := by
  unfold bitsPerPixel
  rw [eq_div_iff (by exact_mod_cast hwh)]
  constructor
  · intro h
    have h8 : (wh : ℚ) = (len : ℚ) := mul_left_cancel₀ (by norm_num) h
    exact_mod_cast h8.symm
  · intro h; rw [h]

theorem decodeCore_zero_area (native : ZBarNative) (image : Image) (h0 : Nat)
    (hwh : image.width * image.height = 0) :
    decodeCore native image h0 = (Except.error DecodeErr.zeroDivisionError, []) := by
  unfold decodeCore
  rw [if_pos hwh]

theorem decodeCore_bad_shape (native : ZBarNative) (image : Image) (h0 : Nat)
    (hwh : image.width * image.height ≠ 0)
    (hlen : image.pixels.length ≠ image.width * image.height) :
    decodeCore native image h0 = (Except.error DecodeErr.unsupportedBitsPerPixel, []) := by
  unfold decodeCore
  rw [if_neg hwh, if_pos]
  intro h
  exact hlen ((bitsPerPixel_eq_eight_iff _ _ hwh).mp h)

theorem decodeCore_good_shape (native : ZBarNative) (image : Image) (h0 : Nat)
    (hwh : image.width * image.height ≠ 0)
    (hlen : image.pixels.length = image.width * image.height) :
    decodeCore native image h0 = decodeScan native image h0 := by
  unfold decodeCore
  rw [if_neg hwh, if_neg]
  intro h
  exact h ((bitsPerPixel_eq_eight_iff _ _ hwh).mpr hlen)

/-- The native-call trace of the scan pipeline when both creates succeed
(shared by the success path and the `zbar_scan_image < 0` error path). -/
def fullTrace (native : ZBarNative) (image : Image) (h0 : Nat) : List Event :=
  [Event.createScanner h0,
   Event.setConfig h0 ZBarSymbol.QRCODE ZBarConfig.CFG_ENABLE 1,
   Event.setConfig h0 ZBarSymbol.CODE128 ZBarConfig.CFG_ENABLE 1,
   Event.createImage (h0 + 1),
   Event.setFormat (h0 + 1) FOURCC_L800,
   Event.setSize (h0 + 1) image.width image.height,
   Event.setData (h0 + 1) image.pixels.length,
   Event.scanImage h0 (h0 + 1) (native.scanResult image),
   Event.destroyImage (h0 + 1),
   Event.destroyScanner h0]

theorem decodeScan_eq_scanner_fail (native : ZBarNative) (image : Image) (h0 : Nat)
    (h1 : native.scannerCreateOk = false) :
    decodeScan native image h0 = (Except.error DecodeErr.couldNotCreateDecoder, []) := by
  simp only [decodeScan]
  rw [if_pos h1]

theorem decodeScan_eq_image_fail (native : ZBarNative) (image : Image) (h0 : Nat)
    (h1 : native.scannerCreateOk = true) (h2 : native.imageCreateOk = false) :
    decodeScan native image h0 =
      (Except.error DecodeErr.couldNotCreateImage,
       [Event.createScanner h0,
        Event.setConfig h0 ZBarSymbol.QRCODE ZBarConfig.CFG_ENABLE 1,
        Event.setConfig h0 ZBarSymbol.CODE128 ZBarConfig.CFG_ENABLE 1,
        Event.destroyScanner h0]) := by
  simp only [decodeScan]
  rw [if_neg (by simp [h1]), if_pos h2]
  rfl

theorem decodeScan_eq_scan_neg (native : ZBarNative) (image : Image) (h0 : Nat)
    (h1 : native.scannerCreateOk = true) (h2 : native.imageCreateOk = true)
    (h3 : native.scanResult image < 0) :
    decodeScan native image h0 =
      (Except.error DecodeErr.unsupportedImageFormat, fullTrace native image h0) := by
  simp only [decodeScan]
  rw [if_neg (by simp [h1]), if_neg (by simp [h2]), if_pos h3]
  rfl

theorem decodeScan_eq_ok (native : ZBarNative) (image : Image) (h0 : Nat)
    (h1 : native.scannerCreateOk = true) (h2 : native.imageCreateOk = true)
    (h3 : ¬ native.scanResult image < 0) :
    decodeScan native image h0 =
      (Except.ok ((native.symbols image).map
         (fun sym => { data := string_at sym.data, type := sym.value })),
       fullTrace native image h0) := by
  simp only [decodeScan]
  rw [if_neg (by simp [h1]), if_neg (by simp [h2]), if_neg h3]
  rfl

theorem decode_fst (native : ZBarNative) (image : Image) (w : World) :
    (decode native image w).1 = (decodeCore native image w.nextHandle).1 := rfl

theorem newEvents_eq (native : ZBarNative) (image : Image) (w : World) :
    newEvents native image w = (decodeCore native image w.nextHandle).2 := by
  unfold newEvents decode
  simp

theorem decodeCore_result_indep (native : ZBarNative) (image : Image) (h0 h1 : Nat) :
    (decodeCore native image h0).1 = (decodeCore native image h1).1 := by
  by_cases hwh : image.width * image.height = 0
  · rw [decodeCore_zero_area _ _ _ hwh, decodeCore_zero_area _ _ _ hwh]
  · by_cases hlen : image.pixels.length = image.width * image.height
    · rw [decodeCore_good_shape _ _ _ hwh hlen, decodeCore_good_shape _ _ _ hwh hlen]
      rcases Bool.eq_false_or_eq_true native.scannerCreateOk with hs | hs
      · rcases Bool.eq_false_or_eq_true native.imageCreateOk with hi | hi
        · by_cases hr : native.scanResult image < 0
          · rw [decodeScan_eq_scan_neg _ _ _ hs hi hr, decodeScan_eq_scan_neg _ _ _ hs hi hr]
          · rw [decodeScan_eq_ok _ _ _ hs hi hr, decodeScan_eq_ok _ _ _ hs hi hr]
        · rw [decodeScan_eq_image_fail _ _ _ hs hi, decodeScan_eq_image_fail _ _ _ hs hi]
      · rw [decodeScan_eq_scanner_fail _ _ _ hs, decodeScan_eq_scanner_fail _ _ _ hs]
    · rw [decodeCore_bad_shape _ _ _ hwh hlen, decodeCore_bad_shape _ _ _ hwh hlen]

/-- C1 counterexample: the claim says every image whose byte length differs
from width×height fails with the `PyZbarError` (UnsupportedFormat); but on the
concrete input `(pixels=[0], width=0, height=0)` the byte length 1 differs
from 0×0 = 0 and yet `decode` raises Python's `ZeroDivisionError` (from the
division in the bits-per-pixel computation), which is not a `PyZbarError`. -/
theorem C1_counterexample_zero_area_mismatch :
    (Image.mk [0] 0 0).pixels.length ≠ (Image.mk [0] 0 0).width * (Image.mk [0] 0 0).height ∧
    (decode trivNative (Image.mk [0] 0 0) world0).1 = Except.error DecodeErr.zeroDivisionError ∧
    DecodeErr.zeroDivisionError.isPyZbarError = false :=
  ⟨by decide, rfl, rfl⟩

/-- C1 amended: for every image of nonzero area whose pixel byte length does
not equal width×height, `decode` fails with the unsupported-bits-per-pixel
`PyZbarError` and produces no partial output: no symbols are returned and no
native entity is even created (the log is unchanged). -/
theorem C1_bad_shape_raises_pyzbar_error (native : ZBarNative) (image : Image) (w : World)
    (hwh : image.width * image.height ≠ 0)
    (hlen : image.pixels.length ≠ image.width * image.height) :
    (decode native image w).1 = Except.error DecodeErr.unsupportedBitsPerPixel ∧
    DecodeErr.unsupportedBitsPerPixel.isPyZbarError = true ∧
    (decode native image w).2.log = w.log := by
  simp only [decode]
  rw [decodeCore_bad_shape _ _ _ hwh hlen]
  exact ⟨rfl, rfl, by simp⟩

/-- C1 witness: the amended theorem applied to the 1×1 image with two pixel
bytes. -/
theorem C1_witness :
    (Image.mk [0, 0] 1 1).width * (Image.mk [0, 0] 1 1).height ≠ 0 ∧
    (Image.mk [0, 0] 1 1).pixels.length ≠
      (Image.mk [0, 0] 1 1).width * (Image.mk [0, 0] 1 1).height ∧
    (decode trivNative (Image.mk [0, 0] 1 1) world0).1 =
      Except.error DecodeErr.unsupportedBitsPerPixel :=
  ⟨by decide, by decide,
   (C1_bad_shape_raises_pyzbar_error trivNative (Image.mk [0, 0] 1 1) world0
     (by decide) (by decide)).1⟩

/-- C2 counterexample: the claim says every well-shaped image (byte length =
width×height) in which the scanner finds no barcodes yields `[]` without an
error; but the concrete well-shaped input `(pixels=[], width=0, height=1)`
(0 = 0×1, and the native scanner reports no symbols) makes `decode` raise
`ZeroDivisionError` instead of returning `[]`. -/
theorem C2_counterexample_zero_area_wellshaped :
    (Image.mk [] 0 1).pixels.length = (Image.mk [] 0 1).width * (Image.mk [] 0 1).height ∧
    trivNative.symbols (Image.mk [] 0 1) = [] ∧
    (decode trivNative (Image.mk [] 0 1) world0).1 = Except.error DecodeErr.zeroDivisionError :=
  ⟨rfl, rfl, rfl⟩

/-- C2 amended: for every well-shaped image of nonzero area, when the native
creates succeed, `zbar_scan_image` does not report an error and the scanner
finds no barcodes, `decode` returns the empty list (no error). -/
theorem C2_no_barcodes_returns_empty (native : ZBarNative) (image : Image) (w : World)
    (hwh : image.width * image.height ≠ 0)
    (hlen : image.pixels.length = image.width * image.height)
    (h1 : native.scannerCreateOk = true) (h2 : native.imageCreateOk = true)
    (h3 : ¬ native.scanResult image < 0)
    (h4 : native.symbols image = []) :
    (decode native image w).1 = Except.ok [] := by
  rw [decode_fst, decodeCore_good_shape _ _ _ hwh hlen, decodeScan_eq_ok _ _ _ h1 h2 h3, h4]
  rfl

/-- C2 witness: the amended theorem applied to the 1×1 all-white image with a
native scanner reporting no symbols — the spec's scenario of a 1×1 white
PixelBuffer yielding an empty sequence. -/
theorem C2_witness :
    (Image.mk [255] 1 1).width * (Image.mk [255] 1 1).height ≠ 0 ∧
    (Image.mk [255] 1 1).pixels.length =
      (Image.mk [255] 1 1).width * (Image.mk [255] 1 1).height ∧
    trivNative.symbols (Image.mk [255] 1 1) = [] ∧
    (decode trivNative (Image.mk [255] 1 1) world0).1 = Except.ok [] :=
  ⟨by decide, rfl, rfl,
   C2_no_barcodes_returns_empty trivNative (Image.mk [255] 1 1) world0
     (by decide) rfl rfl rfl (by decide) rfl⟩

/-- C3 counterexample: the claim says malformed input shape is the only
condition aborting a whole call; but on the well-shaped concrete input
`(pixels=[7], width=1, height=1)`, a native `zbar_scan_image` returning -1
makes `decode` abort with the unsupported-image-format `PyZbarError`. -/
theorem C3_counterexample_scan_error_aborts :
    (Image.mk [7] 1 1).pixels.length = (Image.mk [7] 1 1).width * (Image.mk [7] 1 1).height ∧
    (decode negNative (Image.mk [7] 1 1) world0).1 =
      Except.error DecodeErr.unsupportedImageFormat ∧
    DecodeErr.unsupportedImageFormat.isPyZbarError = true := by
  refine ⟨rfl, ?_, rfl⟩
  rw [decode_fst, decodeCore_good_shape _ _ _ (by decide) (by decide),
      decodeScan_eq_scan_neg _ _ _ rfl rfl (by decide)]

/-- C3 amended: a `decode` call aborts with an error exactly when the image
area is zero (Python `ZeroDivisionError`), or the byte length differs from
width×height, or the native scanner or image handle cannot be created, or
`zbar_scan_image` returns a negative value; in every other situation the call
returns a (possibly empty) result list, so all remaining failures only reduce
the number of symbols returned. -/
theorem C3_abort_characterization (native : ZBarNative) (image : Image) (w : World) :
    (∃ e, (decode native image w).1 = Except.error e) ↔
    (image.width * image.height = 0 ∨
     image.pixels.length ≠ image.width * image.height ∨
     native.scannerCreateOk = false ∨
     native.imageCreateOk = false ∨
     native.scanResult image < 0) := by
  rw [decode_fst]
  by_cases hwh : image.width * image.height = 0
  · rw [decodeCore_zero_area _ _ _ hwh]
    exact ⟨fun _ => Or.inl hwh, fun _ => ⟨_, rfl⟩⟩
  · by_cases hlen : image.pixels.length = image.width * image.height
    · rw [decodeCore_good_shape _ _ _ hwh hlen]
      rcases Bool.eq_false_or_eq_true native.scannerCreateOk with hs | hs
      · rcases Bool.eq_false_or_eq_true native.imageCreateOk with hi | hi
        · by_cases hr : native.scanResult image < 0
          · rw [decodeScan_eq_scan_neg _ _ _ hs hi hr]
            exact ⟨fun _ => Or.inr (Or.inr (Or.inr (Or.inr hr))), fun _ => ⟨_, rfl⟩⟩
          · rw [decodeScan_eq_ok _ _ _ hs hi hr]
            constructor
            · rintro ⟨e, he⟩
              exact Except.noConfusion he
            · rintro (h | h | h | h | h)
              · exact absurd h hwh
              · exact absurd hlen h
              · rw [hs] at h
                exact Bool.noConfusion h
              · rw [hi] at h
                exact Bool.noConfusion h
              · exact absurd h hr
        · rw [decodeScan_eq_image_fail _ _ _ hs hi]
          exact ⟨fun _ => Or.inr (Or.inr (Or.inr (Or.inl hi))), fun _ => ⟨_, rfl⟩⟩
      · rw [decodeScan_eq_scanner_fail _ _ _ hs]
        exact ⟨fun _ => Or.inr (Or.inr (Or.inl hs)), fun _ => ⟨_, rfl⟩⟩
    · rw [decodeCore_bad_shape _ _ _ hwh hlen]
      exact ⟨fun _ => Or.inr (Or.inl hlen), fun _ => ⟨_, rfl⟩⟩

/-- C9: for every input image with width×height = 0, the bits-per-pixel
division divides by zero, so `decode` raises Python's `ZeroDivisionError`
rather than any `PyZbarError` (in particular not the unsupported-format
one). -/
theorem C9_zero_area_zero_division (native : ZBarNative) (image : Image) (w : World)
    (hwh : image.width * image.height = 0) :
    (decode native image w).1 = Except.error DecodeErr.zeroDivisionError ∧
    DecodeErr.zeroDivisionError.isPyZbarError = false := by
  rw [decode_fst, decodeCore_zero_area _ _ _ hwh]
  exact ⟨rfl, rfl⟩

/-- C9 witness: the theorem applied to a 0×5 image carrying no bytes. -/
theorem C9_witness :
    (Image.mk [] 0 5).width * (Image.mk [] 0 5).height = 0 ∧
    (decode trivNative (Image.mk [] 0 5) world0).1 = Except.error DecodeErr.zeroDivisionError :=
  ⟨rfl, (C9_zero_area_zero_division trivNative (Image.mk [] 0 5) world0 rfl).1⟩

/-- C4 counterexample: the claim says no two returned entries carry an
identical (data, type) pair; but when the native symbol list holds the same
decode twice (as redundant row-adjacent candidates produce), `decode` returns
both copies — the `(data, type)` projection of the result is not duplicate
free, because the loop in `decode` appends every symbol without any check. -/
theorem C4_counterexample_duplicates_returned :
    (decode dupNative (Image.mk [0] 1 1) world0).1 =
      Except.ok [{ data := [65], type := ZBarSymbol.QRCODE },
                 { data := [65], type := ZBarSymbol.QRCODE }] ∧
    ¬ ([({ data := [65], type := ZBarSymbol.QRCODE } : Decoded),
        { data := [65], type := ZBarSymbol.QRCODE }].map
         (fun d => (d.data, d.type))).Nodup := by
  constructor
  · rw [decode_fst, decodeCore_good_shape _ _ _ (by decide) (by decide),
        decodeScan_eq_ok _ _ _ rfl rfl (by decide)]
    rfl
  · decide

/-- C4 amended: `decode` performs no deduplication at all — whenever the scan
pipeline runs to completion it returns exactly one entry per symbol of the
native result list, in list order; the output is free of duplicate
(data, type) pairs only when the native list already is. -/
theorem C4_no_dedup_passthrough (native : ZBarNative) (image : Image) (w : World)
    (hwh : image.width * image.height ≠ 0)
    (hlen : image.pixels.length = image.width * image.height)
    (h1 : native.scannerCreateOk = true) (h2 : native.imageCreateOk = true)
    (h3 : ¬ native.scanResult image < 0) :
    (decode native image w).1 =
      Except.ok ((native.symbols image).map
        (fun sym => { data := string_at sym.data, type := sym.value })) := by
  rw [decode_fst, decodeCore_good_shape _ _ _ hwh hlen, decodeScan_eq_ok _ _ _ h1 h2 h3]

/-- C4 witness: the amended theorem applied to the duplicate-producing native
behaviour on a 1×1 image. -/
theorem C4_witness :
    (decode dupNative (Image.mk [3] 1 1) world0).1 =
      Except.ok ((dupNative.symbols (Image.mk [3] 1 1)).map
        (fun sym => { data := string_at sym.data, type := sym.value })) :=
  C4_no_dedup_passthrough dupNative (Image.mk [3] 1 1) world0
    (by decide) rfl rfl rfl (by decide)

/-- C5: the claim — that the `data` field is the complete, untruncated raw
byte sequence of the decoded symbol — fails on a symbol whose payload
contains a NUL byte: `decode` reads the data with ctypes `string_at` and no
length argument (the imported `zbar_symbol_get_data_length` is never called),
so the payload `[72, 0, 73]` (`b"H\x00I"`) comes back truncated to `[72]`. -/
theorem C5_nul_byte_truncates_data :
    (decode nulNative (Image.mk [0] 1 1) world0).1 =
      Except.ok [{ data := [72], type := ZBarSymbol.QRCODE }] ∧
    string_at [72, 0, 73] = [72] ∧
    ([72] : List Nat) ≠ [72, 0, 73] := by
  refine ⟨?_, by decide, by decide⟩
  rw [decode_fst, decodeCore_good_shape _ _ _ (by decide) (by decide),
      decodeScan_eq_ok _ _ _ rfl rfl (by decide)]
  rfl

/-- C6: calling `decode` twice on the same image — the second call starting
from the world state the first call left behind — yields identical results:
the same sequence of decoded symbols in the same order. -/
theorem C6_decode_idempotent (native : ZBarNative) (image : Image) (w : World) :
    (decode native image ((decode native image w).2)).1 = (decode native image w).1 := by
  rw [decode_fst, decode_fst]
  exact decodeCore_result_indep native image _ _

/-- C7 counterexample: the claim says the enabled symbology tags are each
independently toggle-able by the caller; but no combination of inputs makes
`decode` apply any configuration other than the fixed pair (enable QRCODE,
enable CODE128): the configuration calls a `decode` invocation performs are
either none (when the gate or scanner creation fails first) or exactly that
baseline — never anything the caller chose. -/
theorem C7_counterexample_config_not_togglable :
    ¬ ∃ (native : ZBarNative) (image : Image) (w : World),
        configEventsOf (newEvents native image w) ≠ [] ∧
        configEventsOf (newEvents native image w) ≠ enabledBaseline := by
  rintro ⟨native, image, w, hne, hnb⟩
  rw [newEvents_eq] at hne hnb
  by_cases hwh : image.width * image.height = 0
  · rw [decodeCore_zero_area _ _ _ hwh] at hne
    exact hne rfl
  · by_cases hlen : image.pixels.length = image.width * image.height
    · rw [decodeCore_good_shape _ _ _ hwh hlen] at hne hnb
      rcases Bool.eq_false_or_eq_true native.scannerCreateOk with hs | hs
      · rcases Bool.eq_false_or_eq_true native.imageCreateOk with hi | hi
        · by_cases hr : native.scanResult image < 0
          · rw [decodeScan_eq_scan_neg _ _ _ hs hi hr] at hnb
            exact hnb rfl
          · rw [decodeScan_eq_ok _ _ _ hs hi hr] at hnb
            exact hnb rfl
        · rw [decodeScan_eq_image_fail _ _ _ hs hi] at hnb
          exact hnb rfl
      · rw [decodeScan_eq_scanner_fail _ _ _ hs] at hne
        exact hne rfl
    · rw [decodeCore_bad_shape _ _ _ hwh hlen] at hne
      exact hne rfl

/-- C7 amended: `decode` takes no configuration from the caller; whenever the
scanner is created (shape gate passed and scanner creation succeeded) it
applies exactly the fixed baseline — enable QRCODE and enable CODE128, each
with `CFG_ENABLE = 1` — independent of the input image. -/
theorem C7_fixed_baseline_config (native : ZBarNative) (image : Image) (w : World)
    (hwh : image.width * image.height ≠ 0)
    (hlen : image.pixels.length = image.width * image.height)
    (h1 : native.scannerCreateOk = true) :
    configEventsOf (newEvents native image w) = enabledBaseline := by
  rw [newEvents_eq, decodeCore_good_shape _ _ _ hwh hlen]
  rcases Bool.eq_false_or_eq_true native.imageCreateOk with hi | hi
  · by_cases hr : native.scanResult image < 0
    · rw [decodeScan_eq_scan_neg _ _ _ h1 hi hr]
      rfl
    · rw [decodeScan_eq_ok _ _ _ h1 hi hr]
      rfl
  · rw [decodeScan_eq_image_fail _ _ _ h1 hi]
    rfl

/-- C7 witness: the amended theorem applied to a 1×1 image. -/
theorem C7_witness :
    configEventsOf (newEvents trivNative (Image.mk [1] 1 1) world0) = enabledBaseline :=
  C7_fixed_baseline_config trivNative (Image.mk [1] 1 1) world0 (by decide) rfl rfl

theorem newEvents_cases (native : ZBarNative) (image : Image) (w : World) :
    newEvents native image w = [] ∨
    newEvents native image w =
      [Event.createScanner w.nextHandle,
       Event.setConfig w.nextHandle ZBarSymbol.QRCODE ZBarConfig.CFG_ENABLE 1,
       Event.setConfig w.nextHandle ZBarSymbol.CODE128 ZBarConfig.CFG_ENABLE 1,
       Event.destroyScanner w.nextHandle] ∨
    newEvents native image w = fullTrace native image w.nextHandle := by
  rw [newEvents_eq]
  by_cases hwh : image.width * image.height = 0
  · rw [decodeCore_zero_area _ _ _ hwh]
    exact Or.inl rfl
  · by_cases hlen : image.pixels.length = image.width * image.height
    · rw [decodeCore_good_shape _ _ _ hwh hlen]
      rcases Bool.eq_false_or_eq_true native.scannerCreateOk with hs | hs
      · rcases Bool.eq_false_or_eq_true native.imageCreateOk with hi | hi
        · by_cases hr : native.scanResult image < 0
          · rw [decodeScan_eq_scan_neg _ _ _ hs hi hr]
            exact Or.inr (Or.inr rfl)
          · rw [decodeScan_eq_ok _ _ _ hs hi hr]
            exact Or.inr (Or.inr rfl)
        · rw [decodeScan_eq_image_fail _ _ _ hs hi]
          exact Or.inr (Or.inl rfl)
      · rw [decodeScan_eq_scanner_fail _ _ _ hs]
        exact Or.inl rfl
    · rw [decodeCore_bad_shape _ _ _ hwh hlen]
      exact Or.inl rfl

/-- C8: no mutable state is shared between `decode` calls — the result of a
call does not depend on the ambient world left by earlier calls (only on the
image and the native behaviour), every handle a call touches is one it
created itself during that same call (nothing cached or reused from earlier
invocations), and the handles it creates are fresh (allocated at or above the
incoming allocation mark). -/
theorem C8_no_shared_state (native : ZBarNative) (image : Image) (w : World) (h : Nat) :
    (∀ w2, (decode native image w).1 = (decode native image w2).1) ∧
    (handleUsedIn (newEvents native image w) h → handleCreatedIn (newEvents native image w) h) ∧
    (handleCreatedIn (newEvents native image w) h → w.nextHandle ≤ h) := by
  refine ⟨fun w2 => ?_, ?_, ?_⟩
  · rw [decode_fst, decode_fst]
    exact decodeCore_result_indep native image _ _
  all_goals
    rcases newEvents_cases native image w with he | he | he <;>
      rw [he] <;>
      simp [handleUsedIn, handleCreatedIn, Event.usesHandle, fullTrace] <;>
      omega

/-- C8 witness: the state-independence and handle-locality of a concrete
successful call — its result matches the result from a dirty world, and
handle 0, which the call uses, is created inside the call itself and is at or
above the incoming allocation mark. -/
theorem C8_witness :
    (decode trivNative (Image.mk [9] 1 1) world0).1 =
      (decode trivNative (Image.mk [9] 1 1) (World.mk 7 [Event.createScanner 3])).1 ∧
    handleCreatedIn (newEvents trivNative (Image.mk [9] 1 1) world0) 0 ∧
    world0.nextHandle ≤ 0 := by
  have h8 := C8_no_shared_state trivNative (Image.mk [9] 1 1) world0 0
  have hev : newEvents trivNative (Image.mk [9] 1 1) world0 =
      fullTrace trivNative (Image.mk [9] 1 1) 0 := by
    rw [newEvents_eq, decodeCore_good_shape _ _ _ (by decide) (by decide),
        decodeScan_eq_ok _ _ _ rfl rfl (by decide)]
    rfl
  have hused : handleUsedIn (newEvents trivNative (Image.mk [9] 1 1) world0) 0 := by
    rw [hev]
    exact ⟨Event.createScanner 0, by simp [fullTrace], by simp [Event.usesHandle]⟩
  exact ⟨h8.1 _, h8.2.1 hused, h8.2.2 (h8.2.1 hused)⟩

/-- C10: in the native-call trace of any single `decode` call, scanner and
image handles are each created at most once and destroyed exactly as many
times as they are created — so every handle the call successfully creates is
destroyed exactly once before the call returns or propagates an error, on
every exit path (including the one where `zbar_scan_image` returns a negative
value), and nothing is ever destroyed that the call did not create. -/
theorem C10_every_created_handle_destroyed_once
    (native : ZBarNative) (image : Image) (w : World) (h : Nat) :
    ((newEvents native image w).count (Event.destroyScanner h) =
       (newEvents native image w).count (Event.createScanner h)) ∧
    ((newEvents native image w).count (Event.destroyImage h) =
       (newEvents native image w).count (Event.createImage h)) ∧
    (newEvents native image w).count (Event.createScanner h) ≤ 1 ∧
    (newEvents native image w).count (Event.createImage h) ≤ 1 := by
  rcases newEvents_cases native image w with he | he | he <;> rw [he]
  · simp
  · by_cases hs : h = w.nextHandle
    · subst hs
      simp [List.count_cons]
    · simp [List.count_cons, hs]
  · by_cases hs : h = w.nextHandle
    · subst hs
      simp [fullTrace, List.count_cons]
    · by_cases hi : h = w.nextHandle + 1
      · subst hi
        simp [fullTrace, List.count_cons]
      · simp [fullTrace, List.count_cons, hs, hi]

end PyZbar
